import Mathlib

/-!
Shallow embedding of the routing-and-health subsystem of the proxy gateway
(`src/services/proxyService.ts`, `src/services/sessionService.ts`,
`src/middleware/auth.ts`, `src/config/index.ts`, `src/types/index.ts`).

Times (JavaScript `Date.now()` values, milliseconds since epoch) are `Int`.
JavaScript 32-bit integer conversion (`x & x`, `<<`) is made explicit with
`toInt32`.  Fallible lookups return `Option`.
-/

/-! ## Data model (`src/types/index.ts`) -/

/-- `CoreConfig` from `src/types/index.ts`. -/
structure CoreConfig where
  name : String
  url : String
  healthCheck : String
  weight : Nat
  isActive : Bool
deriving Repr, DecidableEq

/-- `RequestMetrics` from `src/types/index.ts` (`timestamp` as epoch ms). -/
structure RequestMetrics where
  requestId : String
  method : String
  path : String
  targetCore : String
  responseTime : Int
  statusCode : Nat
  timestamp : Int
deriving Repr, DecidableEq

/-- `AuthUser` from `src/types/index.ts`. -/
structure AuthUser where
  id : String
  username : String
  role : String
  permissions : List String
deriving Repr, DecidableEq

/-- The payload signed by `SessionService.generateJWT`
(`sessionService.ts` lines 46-54): `{ userId, username, role }`.
It has no `permissions` field and names the id `userId`, not `id`. -/
structure JWTPayload where
  userId : String
  username : String
  role : String
deriving Repr, DecidableEq

/-- `SessionData` from `src/types/index.ts` (`lastActivity` as epoch ms,
optional fields as `Option`). -/
structure SessionData where
  userId : Option String
  userRole : Option String
  lastActivity : Option Int
deriving Repr, DecidableEq

/-- Mutable static state of `ProxyService` (`proxyService.ts` lines 8-10). -/
structure ProxyState where
  activeConfigs : List CoreConfig
  requestMetrics : List RequestMetrics
  currentCoreIndex : Nat
deriving Repr, DecidableEq

/-! ## Configuration (`src/config/index.ts`) -/

/-- First entry of `coreConfigs` in `src/config/index.ts`. -/
def coreApi1 : CoreConfig :=
  { name := "core-api-1", url := "http://localhost:4001",
    healthCheck := "/health", weight := 1, isActive := true }

/-- Second entry of `coreConfigs` in `src/config/index.ts`. -/
def coreApi2 : CoreConfig :=
  { name := "core-api-2", url := "http://localhost:4002",
    healthCheck := "/health", weight := 1, isActive := true }

/-- Third entry of `coreConfigs` in `src/config/index.ts`. -/
def coreApi3 : CoreConfig :=
  { name := "core-api-3", url := "http://localhost:4003",
    healthCheck := "/health", weight := 1, isActive := true }

/-- `coreConfigs` from `src/config/index.ts` (default env). -/
def coreConfigs : List CoreConfig := [coreApi1, coreApi2, coreApi3]

/-- Initial `ProxyService` state (`proxyService.ts` lines 8-10):
`activeConfigs = coreConfigs.filter(c => c.isActive)`, empty metrics,
round-robin counter 0. -/
def initialProxyState : ProxyState :=
  { activeConfigs := coreConfigs.filter (fun c => c.isActive),
    requestMetrics := [], currentCoreIndex := 0 }

/-! ## JavaScript string operations -/

/-- JavaScript `s.startsWith(pre)`, executable over the character list. -/
def jsStartsWith (s pre : String) : Bool := List.isPrefixOf pre.data s.data

/-- JavaScript `s.substring(n)`: drop the first `n` characters. -/
def jsSubstringFrom (s : String) (n : Nat) : String := String.mk (s.data.drop n)

/-! ## ProxyService (`src/services/proxyService.ts`) -/

namespace ProxyService

/-- `updateCoreStatuses` (`proxyService.ts` lines 32-38): each config's
`isActive` is overwritten with its health-probe result, then
`activeConfigs` is recomputed as the healthy filter.  The probe outcome
(`checkCoreHealth`, network I/O) is passed in as `health : String → Bool`,
keyed by backend name. -/
def updateCoreStatuses (health : String → Bool) (cfgs : List CoreConfig)
    (s : ProxyState) : ProxyState :=
  let cfgs' := cfgs.map (fun c => { c with isActive := health c.name })
  { s with activeConfigs := cfgs'.filter (fun c => c.isActive) }

/-- `selectCore` (`proxyService.ts` lines 41-51): round-robin over
`activeConfigs`; returns `null` on an empty set (without touching the
counter), otherwise picks index `currentCoreIndex % length` and
increments the counter. -/
def selectCore (s : ProxyState) : Option CoreConfig × ProxyState :=
  if s.activeConfigs.length = 0 then (none, s)
  else
    (s.activeConfigs.get? (s.currentCoreIndex % s.activeConfigs.length),
     { s with currentCoreIndex := s.currentCoreIndex + 1 })

/-- JavaScript `ToInt32`: wrap an integer into `[-2^31, 2^31)`.  This is
what `hash = hash & hash` performs in `simpleHash`, and what `<< 5`
applies to its result. -/
def toInt32 (x : Int) : Int := (x + 2 ^ 31) % 2 ^ 32 - 2 ^ 31

/-- One loop iteration of `simpleHash` (`proxyService.ts` lines 185-189):
`hash = ((hash << 5) - hash) + char; hash = hash & hash`.  `hash << 5`
wraps to int32; the subtraction and the character-code addition are exact
in float64; `& hash` converts back to int32. -/
def simpleHashStep (hash : Int) (c : Char) : Int :=
  toInt32 (toInt32 (hash * 32) - hash + c.toNat)

/-- The signed 32-bit fold inside `simpleHash` before `Math.abs`
(`proxyService.ts` lines 184-189), starting from `hash = 0`. -/
def hashFold (str : String) : Int := str.data.foldl simpleHashStep 0

/-- `simpleHash` (`proxyService.ts` lines 183-191): `Math.abs` of the
signed 32-bit fold.  The result is a non-negative integer, hence `Nat`. -/
def simpleHash (str : String) : Nat := (hashFold str).natAbs

/-- `selectCoreByUser` (`proxyService.ts` lines 54-61): `null` on an empty
active set, otherwise `activeConfigs[simpleHash(userId) % length]`.
It does not mutate any state. -/
def selectCoreByUser (userId : String) (s : ProxyState) : Option CoreConfig :=
  if s.activeConfigs.length = 0 then none
  else s.activeConfigs.get? (simpleHash userId % s.activeConfigs.length)

/-- `selectCoreByPath` (`proxyService.ts` lines 64-80): `null` on an empty
active set; `/api/v1` → the active config named `core-api-1` (falling back
to round-robin when absent), likewise `/api/v2`, `/api/v3`; otherwise
round-robin. -/
def selectCoreByPath (path : String) (s : ProxyState) :
    Option CoreConfig × ProxyState :=
  if s.activeConfigs.length = 0 then (none, s)
  else if jsStartsWith path "/api/v1" then
    match s.activeConfigs.find? (fun c => c.name == "core-api-1") with
    | some c => (some c, s)
    | none => selectCore s
  else if jsStartsWith path "/api/v2" then
    match s.activeConfigs.find? (fun c => c.name == "core-api-2") with
    | some c => (some c, s)
    | none => selectCore s
  else if jsStartsWith path "/api/v3" then
    match s.activeConfigs.find? (fun c => c.name == "core-api-3") with
    | some c => (some c, s)
    | none => selectCore s
  else selectCore s

/-- `slice(-n)` on a JavaScript array: the last `n` elements (the whole
array when it is shorter than `n`). -/
def sliceLast (n : Nat) (l : List RequestMetrics) : List RequestMetrics :=
  l.drop (l.length - n)

/-- The metrics append-and-trim step of `onProxyRes`
(`proxyService.ts` lines 118-123): push, then keep only the last 1000. -/
def recordMetric (m : RequestMetrics) (ms : List RequestMetrics) :
    List RequestMetrics :=
  let ms' := ms ++ [m]
  if ms'.length > 1000 then sliceLast 1000 ms' else ms'

/-- Folding `recordMetric` over a sequence of outcomes starting from the
empty store (`requestMetrics = []`, `proxyService.ts` line 9). -/
def recordAll (os : List RequestMetrics) : List RequestMetrics :=
  os.foldl (fun acc m => recordMetric m acc) []

/-- `onProxyRes` (`proxyService.ts` lines 101-124).  `t1` is the value of
the `Date.now()` call that initializes `startTime` (line 103) and `t2`
the value of the `Date.now()` call inside the metrics record (line 113);
both run inside the response handler.  `statusCode` is
`proxyRes.statusCode || 0`. -/
def onProxyRes (requestId method path : String) (targetCore : CoreConfig)
    (statusCode : Option Nat) (t1 t2 : Int) (s : ProxyState) : ProxyState :=
  let startTime := t1
  let m : RequestMetrics :=
    { requestId := requestId, method := method, path := path,
      targetCore := targetCore.name,
      responseTime := t2 - startTime,
      statusCode := statusCode.getD 0,
      timestamp := t2 }
  { s with requestMetrics := recordMetric m s.requestMetrics }

/-- The JSON error response sent by `onError` and `intelligentRouter`. -/
structure ErrorResponse where
  status : Nat
  error : String
  requestId : String
deriving Repr, DecidableEq

/-- `onError` (`proxyService.ts` lines 127-136): respond
`502 Bad Gateway` carrying the request's correlation id.  It does not
touch `requestMetrics`, so the state is returned unchanged. -/
def onError (requestId : String) (s : ProxyState) : ErrorResponse × ProxyState :=
  ({ status := 502, error := "Bad Gateway", requestId := requestId }, s)

/-- Outcome of `intelligentRouter`'s selection phase:
either hand the request to the proxy middleware for a backend, or respond
`503 Service Unavailable` (`proxyService.ts` lines 160-166). -/
inductive RouteResult where
  | forward (core : CoreConfig)
  | serviceUnavailable503
deriving Repr, DecidableEq

/-- `intelligentRouter` (`proxyService.ts` lines 143-180), selection and
dispatch: with a session `userId` present the user-affinity strategy is
used, otherwise the path strategy; a `null` selection yields 503.  The
probabilistic opportunistic health sweep (line 147, `Math.random`) is
network I/O and is modeled as having already been applied to `s`. -/
def intelligentRouter (sessionUserId : Option String) (path : String)
    (s : ProxyState) : RouteResult × ProxyState :=
  match sessionUserId with
  | some uid =>
    match selectCoreByUser uid s with
    | some c => (.forward c, s)
    | none => (.serviceUnavailable503, s)
  | none =>
    match selectCoreByPath path s with
    | (some c, s') => (.forward c, s')
    | (none, s') => (.serviceUnavailable503, s')

/-- Iterate `selectCore`, collecting the selections in call order. -/
def selectCoreRun (s : ProxyState) : Nat → List (Option CoreConfig) × ProxyState
  | 0 => ([], s)
  | m + 1 =>
    let (c, s') := selectCore s
    let (cs, s'') := selectCoreRun s' m
    (c :: cs, s'')

end ProxyService

/-! ## SessionService (`src/services/sessionService.ts`) and the auth
middleware (`src/middleware/auth.ts`) -/

namespace SessionService

/-- JavaScript truthiness of an optional string field
(`!x` is true for `undefined` and for `""`). -/
def truthyStr : Option String → Bool
  | none => false
  | some s => !s.isEmpty

/-- The in-memory user list of `SessionService`
(`sessionService.ts` lines 10-23), first entry. -/
def adminUser : AuthUser :=
  { id := "1", username := "admin", role := "admin",
    permissions := ["read", "write", "delete"] }

/-- The in-memory user list of `SessionService`, second entry. -/
def regularUser : AuthUser :=
  { id := "2", username := "user", role := "user", permissions := ["read"] }

/-- `SessionService.users` (`sessionService.ts` lines 10-23). -/
def users : List AuthUser := [adminUser, regularUser]

/-- `generateJWT` (`sessionService.ts` lines 46-54): the signed payload is
`{ userId: user.id, username, role }` — the `permissions` field of the
`AuthUser` is not included.  Signing itself is crypto I/O; the payload is
what verification returns. -/
def generateJWT (user : AuthUser) : JWTPayload :=
  { userId := user.id, username := user.username, role := user.role }

/-- `isSessionValid` (`sessionService.ts` lines 83-91): false when
`userId` or `lastActivity` is falsy, otherwise `now - lastActivity <
timeout`. -/
def isSessionValid (timeout now : Int) (sd : SessionData) : Bool :=
  if !(truthyStr sd.userId) || sd.lastActivity.isNone then false
  else
    match sd.lastActivity with
    | some la => decide (now - la < timeout)
    | none => false

/-- `updateLastActivity` (`sessionService.ts` lines 93-97): refresh
`lastActivity` to `now` when a `userId` is present. -/
def updateLastActivity (now : Int) (sd : SessionData) : SessionData :=
  if truthyStr sd.userId then { sd with lastActivity := some now } else sd

/-- `getUserFromSession` (`sessionService.ts` lines 99-103), taking the
session's `userId` field: `null` without one, else lookup in `users`. -/
def getUserFromSession (sessionUserId : Option String) : Option AuthUser :=
  if truthyStr sessionUserId then
    match sessionUserId with
    | some uid => users.find? (fun u => u.id == uid)
    | none => none
  else none

end SessionService

namespace AuthMiddleware

open SessionService

/-- Outcome of `requireAuth` (`src/middleware/auth.ts` lines 5-40).
`nextSession` carries the refreshed session, `nextToken` the decoded JWT
payload assigned to `req.user`; `sessionExpired401` is the distinguished
401 whose handler destroys the session and clears the cookie;
`unauthorized401` is the plain 401. -/
inductive AuthResult where
  | nextSession (updated : SessionData)
  | nextToken (user : JWTPayload)
  | sessionExpired401
  | unauthorized401
deriving Repr, DecidableEq

/-- The JWT branch of `requireAuth` (`auth.ts` lines 25-39): a
`Bearer `-prefixed authorization header whose token verifies lets the
request through with `req.user = decoded`; otherwise 401.  `verify`
stands for `SessionService.verifyJWT` (signature check, crypto I/O). -/
def tokenBranch (authHeader : Option String)
    (verify : String → Option JWTPayload) : AuthResult :=
  match authHeader with
  | some h =>
    if jsStartsWith h "Bearer " then
      match verify (jsSubstringFrom h 7) with
      | some decoded => .nextToken decoded
      | none => .unauthorized401
    else .unauthorized401
  | none => .unauthorized401

/-- `requireAuth` (`auth.ts` lines 5-40): a session with a truthy
`userId` is accepted (refreshing `lastActivity`) when valid, rejected
with the session-destroying 401 when stale; without such a session the
bearer-token branch runs. -/
def requireAuth (timeout now : Int) (session : Option SessionData)
    (authHeader : Option String) (verify : String → Option JWTPayload) :
    AuthResult :=
  match session with
  | some sd =>
    if truthyStr sd.userId then
      if isSessionValid timeout now sd then
        .nextSession (updateLastActivity now sd)
      else .sessionExpired401
    else tokenBranch authHeader verify
  | none => tokenBranch authHeader verify

/-- The principal seen by `requirePermission`/`requireRole`
(`auth.ts` line 45): `SessionService.getUserFromSession(req) || req.user`
— either a full `AuthUser` or the raw decoded JWT payload. -/
inductive ReqUser where
  | session (u : AuthUser)
  | token (p : JWTPayload)
deriving Repr, DecidableEq

/-- `user.permissions` as JavaScript reads it off a `ReqUser`: an
`AuthUser` has the field; a decoded JWT payload does not (`undefined`). -/
def userPermissions : ReqUser → Option (List String)
  | .session u => some u.permissions
  | .token _ => none

/-- Resolution `getUserFromSession(req) || req.user` (`auth.ts` line 45). -/
def resolveReqUser (sessionUserId : Option String)
    (reqUser : Option JWTPayload) : Option ReqUser :=
  match getUserFromSession sessionUserId with
  | some u => some (.session u)
  | none => reqUser.map .token

/-- Outcome of `requirePermission` (`auth.ts` lines 43-65). -/
inductive PermResult where
  | next
  | forbidden403
  | unauthorized401
deriving Repr, DecidableEq

/-- `requirePermission` (`auth.ts` lines 43-65): 401 with no principal;
403 when `user.permissions?.includes(permission)` is not true — which
happens both when the permission is missing from the list and when the
principal (a decoded JWT payload) has no `permissions` field at all. -/
def requirePermission (permission : String) (user : Option ReqUser) :
    PermResult :=
  match user with
  | none => .unauthorized401
  | some u =>
    match userPermissions u with
    | some ps => if ps.contains permission then .next else .forbidden403
    | none => .forbidden403

end AuthMiddleware

/-! ## Theorems -/

open ProxyService SessionService AuthMiddleware

section Helpers

/-- A config returned by `selectCore` is a member of the active set. -/
lemma selectCore_mem {s : ProxyState} {c : CoreConfig} {s' : ProxyState}
    (h : selectCore s = (some c, s')) : c ∈ s.activeConfigs := by
  unfold selectCore at h
  split at h
  · simp at h
  · have := congrArg Prod.fst h
    simp only at this
    exact List.get?_mem this

/-- A config returned by `selectCoreByUser` is a member of the active set. -/
lemma selectCoreByUser_mem {uid : String} {s : ProxyState} {c : CoreConfig}
    (h : selectCoreByUser uid s = some c) : c ∈ s.activeConfigs := by
  unfold selectCoreByUser at h
  split at h
  · simp at h
  · exact List.get?_mem h

/-- A config returned by `selectCoreByPath` is a member of the active set. -/
lemma selectCoreByPath_mem {path : String} {s : ProxyState} {c : CoreConfig}
    {s' : ProxyState} (h : selectCoreByPath path s = (some c, s')) :
    c ∈ s.activeConfigs := by
  unfold selectCoreByPath at h
  split at h
  · simp at h
  · split at h
    · split at h
      · rename_i hf
        have := congrArg Prod.fst h
        simp only at this
        obtain rfl := Option.some.inj this
        exact List.mem_of_find?_eq_some hf
      · exact selectCore_mem h
    · split at h
      · split at h
        · rename_i hf
          have := congrArg Prod.fst h
          simp only at this
          obtain rfl := Option.some.inj this
          exact List.mem_of_find?_eq_some hf
        · exact selectCore_mem h
      · split at h
        · split at h
          · rename_i hf
            have := congrArg Prod.fst h
            simp only at this
            obtain rfl := Option.some.inj this
            exact List.mem_of_find?_eq_some hf
          · exact selectCore_mem h
        · exact selectCore_mem h

/-- Every member of the active set right after `updateCoreStatuses` has
`isActive = true`, and its `isActive` equals its health-probe result. -/
lemma mem_updateCoreStatuses {health : String → Bool} {cfgs : List CoreConfig}
    {s : ProxyState} {c : CoreConfig}
    (h : c ∈ (updateCoreStatuses health cfgs s).activeConfigs) :
    c.isActive = true ∧ health c.name = true := by
  unfold updateCoreStatuses at h
  simp only [List.mem_filter, List.mem_map] at h
  obtain ⟨⟨c₀, _, rfl⟩, hact⟩ := h
  exact ⟨hact, hact⟩

end Helpers

/-- C1 — counterexample: with all three backends healthy and an
authenticated session identity (`userId = "1"`) present, a request to
`/api/v1/x` is routed to `core-api-2`, not to the healthy `core-api-1`:
`intelligentRouter` consults the user-affinity strategy first whenever a
session identity is present, so the path-prefix strategy is not evaluated
with higher priority. -/
theorem c1_counterexample_user_affinity_wins :
    (intelligentRouter (some "1") "/api/v1/x" initialProxyState).1
        = .forward coreApi2
    ∧ coreApi2.name ≠ "core-api-1"
    ∧ coreApi1 ∈ initialProxyState.activeConfigs
    ∧ coreApi1.isActive = true
    ∧ jsStartsWith "/api/v1/x" "/api/v1" = true := by
  refine ⟨?_, by decide, by decide, by decide, by decide⟩
  decide

/-- C1 (amended) — a request whose path starts with `/api/v1` while an
active backend named `core-api-1` exists is routed to that backend by the
path-prefix strategy, provided no session identity is present (with an
identity, the user-affinity strategy is evaluated instead). -/
theorem c1_path_prefix_selects_core_api_1 (s : ProxyState) (path : String)
    (c : CoreConfig) (hp : jsStartsWith path "/api/v1" = true)
    (hfind : s.activeConfigs.find? (fun x => x.name == "core-api-1") = some c) :
    (intelligentRouter none path s).1 = .forward c := by
  have hne : s.activeConfigs.length ≠ 0 := by
    intro h
    rw [List.length_eq_zero] at h
    rw [h] at hfind
    simp at hfind
  simp [intelligentRouter, selectCoreByPath, hne, hp, hfind]

/-- C1 witness: the amended theorem applied at a concrete request. -/
theorem c1_path_prefix_selects_core_api_1_witness :
    (jsStartsWith "/api/v1/x" "/api/v1" = true)
    ∧ initialProxyState.activeConfigs.find? (fun x => x.name == "core-api-1")
        = some coreApi1
    ∧ (intelligentRouter none "/api/v1/x" initialProxyState).1
        = .forward coreApi1 :=
  ⟨by decide, by decide,
   c1_path_prefix_selects_core_api_1 initialProxyState "/api/v1/x" coreApi1
     (by decide) (by decide)⟩

/-- C2 — counterexample: a forwarding failure (`onError`) answers
`502 Bad Gateway`, but the metrics store still holds no `RequestOutcome`
afterwards: starting from the empty store, `requestMetrics` is `[]` after
the error handler runs, so the failure is absent from recorded metrics. -/
theorem c2_counterexample_failure_not_recorded :
    (onError "req-1" initialProxyState).1.status = 502
    ∧ (onError "req-1" initialProxyState).1.requestId = "req-1"
    ∧ (onError "req-1" initialProxyState).2.requestMetrics = [] := by
  exact ⟨rfl, rfl, rfl⟩

/-- C2 (amended) — on a forwarding timeout or connection failure the
client receives a 502 Bad Gateway response carrying the correlation id,
but no `RequestOutcome` is appended to the metrics store: `onError`
leaves `requestMetrics` exactly as it was. -/
theorem c2_onError_502_and_metrics_unchanged (rid : String) (s : ProxyState) :
    (onError rid s).1.status = 502
    ∧ (onError rid s).1.error = "Bad Gateway"
    ∧ (onError rid s).1.requestId = rid
    ∧ (onError rid s).2.requestMetrics = s.requestMetrics :=
  ⟨rfl, rfl, rfl, rfl⟩

/-- C3 — the code contradicts the claim: for the same principal (the
admin user, id `"1"`), `requirePermission "read"` accepts when the
identity arrived through the session path but responds 403 when it
arrived through the bearer-token path, because the JWT payload produced
by `generateJWT` carries no `permissions` field (and names the id
`userId` rather than `id`). -/
theorem c3_token_path_loses_permissions :
    requirePermission "read" (resolveReqUser (some adminUser.id) none)
        = .next
    ∧ requirePermission "read"
        (resolveReqUser none (some (generateJWT adminUser))) = .forbidden403
    ∧ (generateJWT adminUser).userId = adminUser.id
    ∧ "read" ∈ adminUser.permissions := by
  exact ⟨by decide, by decide, by decide, by decide⟩

/-- C4 — the code contradicts the claim: `onProxyRes` captures
`startTime` only inside the response handler, so the recorded
`responseTime` is the difference of two `Date.now()` calls made after the
backend already responded.  For a request dispatched at t=0 whose
response arrives at t=100 (both handler clock reads returning 100), the
recorded `responseTime` is 0, not the 100 ms full request/response
cycle. -/
theorem c4_responseTime_measures_nothing :
    (onProxyRes "r1" "GET" "/api/v1/x" coreApi1 (some 200) 100 100
        initialProxyState).requestMetrics.map (fun m => m.responseTime)
      = [0]
    ∧ (onProxyRes "r1" "GET" "/api/v1/x" coreApi1 (some 200) 100 100
        initialProxyState).requestMetrics.map (fun m => m.timestamp)
      = [100] := by
  exact ⟨by decide, by decide⟩

/-- C5 — after a health sweep, every selection strategy returns a backend
with `isActive = true`; with `core-api-1` unhealthy, no strategy ever
selects it, and a `/api/v1`-prefixed request falls through to round-robin
(`selectCoreByPath` coincides with `selectCore`). -/
theorem c5_selector_never_returns_unhealthy
    (health : String → Bool) (cfgs : List CoreConfig) (s : ProxyState)
    (uid path : String) (c c' c'' : CoreConfig) (s1 s2 : ProxyState)
    (h1 : selectCore (updateCoreStatuses health cfgs s) = (some c, s1))
    (h2 : selectCoreByUser uid (updateCoreStatuses health cfgs s) = some c')
    (h3 : selectCoreByPath path (updateCoreStatuses health cfgs s) = (some c'', s2))
    (h4 : health "core-api-1" = false)
    (hp : jsStartsWith path "/api/v1" = true) :
    (c.isActive = true ∧ c'.isActive = true ∧ c''.isActive = true)
    ∧ (c.name ≠ "core-api-1" ∧ c'.name ≠ "core-api-1" ∧ c''.name ≠ "core-api-1")
    ∧ selectCoreByPath path (updateCoreStatuses health cfgs s)
        = selectCore (updateCoreStatuses health cfgs s) := by
  have m1 := mem_updateCoreStatuses (selectCore_mem h1)
  have m2 := mem_updateCoreStatuses (selectCoreByUser_mem h2)
  have m3 := mem_updateCoreStatuses (selectCoreByPath_mem h3)
  have names : ∀ x : CoreConfig, health x.name = true → x.name ≠ "core-api-1" := by
    intro x hx hn
    rw [hn, h4] at hx
    exact Bool.false_ne_true hx
  have hnone : (updateCoreStatuses health cfgs s).activeConfigs.find?
      (fun x => x.name == "core-api-1") = none := by
    rw [List.find?_eq_none]
    intro x hx hbeq
    have hname : x.name = "core-api-1" := by simpa using hbeq
    exact names x (mem_updateCoreStatuses hx).2 hname
  have hlen : (updateCoreStatuses health cfgs s).activeConfigs.length ≠ 0 := by
    intro hz
    rw [List.length_eq_zero] at hz
    exact (List.ne_nil_of_mem (selectCoreByPath_mem h3)) hz
  refine ⟨⟨m1.1, m2.1, m3.1⟩, ⟨names c m1.2, names c' m2.2, names c'' m3.2⟩, ?_⟩
  simp [selectCoreByPath, hlen, hp, hnone]

/-- C5 witness: `core-api-1` marked unhealthy, the other two healthy;
round-robin yields `core-api-2`, user `"1"` hashes to `core-api-3`, and
`/api/v1/x` falls through to round-robin yielding `core-api-2`. -/
theorem c5_selector_never_returns_unhealthy_witness :
    selectCore (updateCoreStatuses (fun n => !(n == "core-api-1"))
        coreConfigs initialProxyState)
      = (some coreApi2, ⟨[coreApi2, coreApi3], [], 1⟩)
    ∧ selectCoreByUser "1" (updateCoreStatuses (fun n => !(n == "core-api-1"))
        coreConfigs initialProxyState) = some coreApi3
    ∧ selectCoreByPath "/api/v1/x" (updateCoreStatuses (fun n => !(n == "core-api-1"))
        coreConfigs initialProxyState)
      = (some coreApi2, ⟨[coreApi2, coreApi3], [], 1⟩)
    ∧ (fun n => !(n == "core-api-1")) "core-api-1" = false
    ∧ jsStartsWith "/api/v1/x" "/api/v1" = true
    ∧ ((coreApi2.isActive = true ∧ coreApi3.isActive = true ∧ coreApi2.isActive = true)
       ∧ (coreApi2.name ≠ "core-api-1" ∧ coreApi3.name ≠ "core-api-1"
          ∧ coreApi2.name ≠ "core-api-1")
       ∧ selectCoreByPath "/api/v1/x" (updateCoreStatuses (fun n => !(n == "core-api-1"))
            coreConfigs initialProxyState)
          = selectCore (updateCoreStatuses (fun n => !(n == "core-api-1"))
            coreConfigs initialProxyState)) :=
  ⟨by decide, by decide, by decide, by decide, by decide,
   c5_selector_never_returns_unhealthy (fun n => !(n == "core-api-1"))
     coreConfigs initialProxyState "1" "/api/v1/x" coreApi2 coreApi3 coreApi2
     ⟨[coreApi2, coreApi3], [], 1⟩ ⟨[coreApi2, coreApi3], [], 1⟩
     (by decide) (by decide) (by decide) (by decide) (by decide)⟩

/-- C7 — through the session path, a session whose `lastActivity` is
`timeout + 1` ms ago is rejected with the distinguished session-expired
401 (whose handler destroys the session); one whose `lastActivity` is
`timeout - 1` ms ago is accepted with `lastActivity` refreshed to `now`;
and in general acceptance holds exactly when `now - lastActivity <
timeout`. -/
theorem c7_session_validity_boundary (timeout now la : Int)
    (sd : SessionData) (hdr : Option String)
    (verify : String → Option JWTPayload)
    (huid : truthyStr sd.userId = true) :
    requireAuth timeout now
        (some { sd with lastActivity := some (now - (timeout + 1)) }) hdr verify
      = .sessionExpired401
    ∧ requireAuth timeout now
        (some { sd with lastActivity := some (now - (timeout - 1)) }) hdr verify
      = .nextSession { sd with lastActivity := some now }
    ∧ (requireAuth timeout now
        (some { sd with lastActivity := some la }) hdr verify
      = .nextSession { sd with lastActivity := some now } ↔ now - la < timeout) := by
  have e1 : isSessionValid timeout now
      { sd with lastActivity := some (now - (timeout + 1)) } = false := by
    simp [isSessionValid, huid]
  have e2 : isSessionValid timeout now
      { sd with lastActivity := some (now - (timeout - 1)) } = true := by
    simp [isSessionValid, huid]
  refine ⟨?_, ?_, ?_⟩
  · simp [requireAuth, huid, e1]
  · simp [requireAuth, huid, e2, updateLastActivity]
  · by_cases hv : now - la < timeout
    · have e3 : isSessionValid timeout now
          { sd with lastActivity := some la } = true := by
        simp [isSessionValid, huid, hv]
      simp [requireAuth, huid, e3, updateLastActivity, hv]
    · have e3 : isSessionValid timeout now
          { sd with lastActivity := some la } = false := by
        simp [isSessionValid, huid, hv]
      simp [requireAuth, huid, e3, hv]

/-- C7 witness: the boundary theorem applied at `timeout = 1000`,
`now = 0`, a concrete session. -/
theorem c7_session_validity_boundary_witness :
    truthyStr (⟨some "u1", none, some 5⟩ : SessionData).userId = true
    ∧ (requireAuth 1000 0
          (some { (⟨some "u1", none, some 5⟩ : SessionData) with
                    lastActivity := some (0 - (1000 + 1)) }) none (fun _ => none)
        = .sessionExpired401
      ∧ requireAuth 1000 0
          (some { (⟨some "u1", none, some 5⟩ : SessionData) with
                    lastActivity := some (0 - (1000 - 1)) }) none (fun _ => none)
        = .nextSession { (⟨some "u1", none, some 5⟩ : SessionData) with
                           lastActivity := some (0 : Int) }
      ∧ (requireAuth 1000 0
          (some { (⟨some "u1", none, some 5⟩ : SessionData) with
                    lastActivity := some (0 : Int) }) none (fun _ => none)
        = .nextSession { (⟨some "u1", none, some 5⟩ : SessionData) with
                           lastActivity := some (0 : Int) }
          ↔ (0 : Int) - 0 < 1000)) :=
  ⟨by decide,
   c7_session_validity_boundary 1000 0 0 ⟨some "u1", none, some 5⟩ none
     (fun _ => none) (by decide)⟩

/-- C9 — with an empty healthy set every selector returns no backend, the
router answers 503 Service Unavailable, and the state (in particular the
metrics store) is unchanged: forwarding is never attempted and no
`RequestOutcome` is appended. -/
theorem c9_empty_healthy_set_503 (s : ProxyState) (uid path : String)
    (su : Option String) (h : s.activeConfigs = []) :
    selectCore s = (none, s)
    ∧ selectCoreByUser uid s = none
    ∧ selectCoreByPath path s = (none, s)
    ∧ intelligentRouter su path s = (.serviceUnavailable503, s) := by
  have hlen : s.activeConfigs.length = 0 := by rw [h]; rfl
  refine ⟨?_, ?_, ?_, ?_⟩
  · simp [selectCore, hlen]
  · simp [selectCoreByUser, hlen]
  · simp [selectCoreByPath, hlen]
  · cases su with
    | none => simp [intelligentRouter, selectCoreByPath, hlen]
    | some u => simp [intelligentRouter, selectCoreByUser, hlen]

/-- C9 witness: the empty-set theorem at a concrete empty state. -/
theorem c9_empty_healthy_set_503_witness :
    (⟨[], [], 0⟩ : ProxyState).activeConfigs = []
    ∧ (selectCore ⟨[], [], 0⟩ = (none, ⟨[], [], 0⟩)
      ∧ selectCoreByUser "1" ⟨[], [], 0⟩ = none
      ∧ selectCoreByPath "/api/v1/x" ⟨[], [], 0⟩ = (none, ⟨[], [], 0⟩)
      ∧ intelligentRouter (some "1") "/api/v1/x" ⟨[], [], 0⟩
          = (.serviceUnavailable503, ⟨[], [], 0⟩)) :=
  ⟨rfl, c9_empty_healthy_set_503 ⟨[], [], 0⟩ "1" "/api/v1/x" (some "1") rfl⟩

/-- `toInt32` always lands in the signed 32-bit range. -/
lemma toInt32_range (x : Int) : -(2 ^ 31) ≤ toInt32 x ∧ toInt32 x < 2 ^ 31 := by
  unfold toInt32
  have h1 : 0 ≤ (x + 2 ^ 31) % 2 ^ 32 := Int.emod_nonneg _ (by norm_num)
  have h2 : (x + 2 ^ 31) % 2 ^ 32 < 2 ^ 32 := Int.emod_lt_of_pos _ (by norm_num)
  have e1 : (2 : Int) ^ 31 = 2147483648 := by norm_num
  have e2 : (2 : Int) ^ 32 = 4294967296 := by norm_num
  rw [e1, e2] at *
  omega

/-- Folding `simpleHashStep` keeps the accumulator in int32 range. -/
lemma foldl_simpleHashStep_range (l : List Char) (acc : Int)
    (h : -(2 ^ 31) ≤ acc ∧ acc < 2 ^ 31) :
    -(2 ^ 31) ≤ l.foldl simpleHashStep acc
    ∧ l.foldl simpleHashStep acc < 2 ^ 31 := by
  induction l generalizing acc with
  | nil => exact h
  | cons c l ih => exact ih _ (toInt32_range _)

/-- `hashFold` stays in the signed 32-bit range. -/
lemma hashFold_range (str : String) :
    -(2 ^ 31) ≤ hashFold str ∧ hashFold str < 2 ^ 31 :=
  foldl_simpleHashStep_range str.data 0 (by norm_num)

/-- C10 — `simpleHash` is the absolute value of the signed 32-bit fold
(hence a non-negative integer), the derived index is always in range,
and `selectCoreByUser` returns a backend whenever the active list is
non-empty. -/
theorem c10_simpleHash_nonneg_index_in_range (uid : String) (s : ProxyState)
    (h : s.activeConfigs ≠ []) :
    (simpleHash uid : Int) = |hashFold uid|
    ∧ (-(2 ^ 31) ≤ hashFold uid ∧ hashFold uid < 2 ^ 31)
    ∧ simpleHash uid % s.activeConfigs.length < s.activeConfigs.length
    ∧ (selectCoreByUser uid s).isSome = true := by
  have hpos : 0 < s.activeConfigs.length := List.length_pos.mpr h
  refine ⟨?_, hashFold_range uid, Nat.mod_lt _ hpos, ?_⟩
  · rw [simpleHash, Int.abs_eq_natAbs]
  · have hlen : s.activeConfigs.length ≠ 0 := Nat.pos_iff_ne_zero.mp hpos
    rw [selectCoreByUser, if_neg hlen]
    rw [List.get?_eq_get (Nat.mod_lt _ hpos)]
    rfl

/-- C10 witness: the theorem applied at user `"1"` and the initial
three-backend state. -/
theorem c10_simpleHash_nonneg_index_in_range_witness :
    initialProxyState.activeConfigs ≠ []
    ∧ ((simpleHash "1" : Int) = |hashFold "1"|
      ∧ (-(2 ^ 31) ≤ hashFold "1" ∧ hashFold "1" < 2 ^ 31)
      ∧ simpleHash "1" % initialProxyState.activeConfigs.length
          < initialProxyState.activeConfigs.length
      ∧ (selectCoreByUser "1" initialProxyState).isSome = true) :=
  ⟨by decide,
   c10_simpleHash_nonneg_index_in_range "1" initialProxyState (by decide)⟩

/-- The metrics store after any record sequence is the drop of all but
the last 1000. -/
lemma recordAll_eq_drop (os : List RequestMetrics) :
    recordAll os = os.drop (os.length - 1000) := by
  induction os using List.reverseRecOn with
  | nil => rfl
  | append_singleton os m ih =>
    have hstep : recordAll (os ++ [m]) = recordMetric m (recordAll os) := by
      rw [recordAll, recordAll, List.foldl_append, List.foldl_cons, List.foldl_nil]
    rw [hstep, ih]
    simp only [recordMetric]
    by_cases hle : os.length < 1000
    · have hnot : ¬ (os.drop (os.length - 1000) ++ [m]).length > 1000 := by
        simp only [List.length_append, List.length_drop, List.length_singleton]
        omega
      rw [if_neg hnot]
      have hz : os.length - 1000 = 0 := by omega
      have hz' : (os ++ [m]).length - 1000 = 0 := by
        simp only [List.length_append, List.length_singleton]
        omega
      rw [hz, hz', List.drop_zero, List.drop_zero]
    · have hgt : (os.drop (os.length - 1000) ++ [m]).length > 1000 := by
        simp only [List.length_append, List.length_drop, List.length_singleton]
        omega
      rw [if_pos hgt]
      simp only [sliceLast]
      have hlen1 : (os.drop (os.length - 1000) ++ [m]).length - 1000 = 1 := by
        simp only [List.length_append, List.length_drop, List.length_singleton]
        omega
      rw [hlen1]
      have h2 : (os.drop (os.length - 1000) ++ [m]).drop 1
          = (os.drop (os.length - 1000)).drop 1 ++ [m] :=
        List.drop_append_of_le_length (by simp only [List.length_drop]; omega)
      rw [h2, List.drop_drop]
      have h3 : (os ++ [m]).drop ((os ++ [m]).length - 1000)
          = os.drop ((os ++ [m]).length - 1000) ++ [m] :=
        List.drop_append_of_le_length
          (by simp only [List.length_append, List.length_singleton]; omega)
      rw [h3]
      have h4 : os.length - 1000 + 1 = (os ++ [m]).length - 1000 := by
        simp only [List.length_append, List.length_singleton]
        omega
      rw [h4]

/-- C8 — after any sequence of record operations starting from the empty
store, the metrics store holds exactly the most recent
`min (number recorded) 1000` outcomes in arrival order (the drop of all
older ones); in particular it never holds more than 1000, and after 1001
records it holds 1000. -/
theorem c8_metrics_ring_buffer (os : List RequestMetrics) :
    recordAll os = os.drop (os.length - 1000)
    ∧ (recordAll os).length = min os.length 1000 := by
  refine ⟨recordAll_eq_drop os, ?_⟩
  rw [recordAll_eq_drop, List.length_drop]
  omega

/-- In one block of `n` consecutive counter values starting at `k`,
exactly one hits residue `i`. -/
lemma countP_mod_range_base (n k i : ℕ) (hn : 0 < n) (hi : i < n) :
    (List.range n).countP (fun x => (k + x) % n == i) = 1 := by
  have hklt : k % n < n := Nat.mod_lt _ hn
  have hx0lt : (i + n - k % n) % n < n := Nat.mod_lt _ hn
  have hkx0 : (k + (i + n - k % n) % n) % n = i := by
    have h1 : (i + n - k % n) % n ≡ i + n - k % n [MOD n] := Nat.mod_modEq _ n
    have h2 : k ≡ k % n [MOD n] := (Nat.mod_modEq k n).symm
    have h3 : k + (i + n - k % n) % n ≡ k % n + (i + n - k % n) [MOD n] :=
      Nat.ModEq.add h2 h1
    have e : k % n + (i + n - k % n) = i + n := by omega
    rw [e] at h3
    have h4 : k + (i + n - k % n) % n ≡ i [MOD n] :=
      h3.trans (Nat.add_mod_right i n)
    have h5 : (k + (i + n - k % n) % n) % n = i % n := h4
    rwa [Nat.mod_eq_of_lt hi] at h5
  have hpred : ∀ x ∈ List.range n,
      ((k + x) % n == i) = true ↔ (x == (i + n - k % n) % n) = true := by
    intro x hx
    rw [List.mem_range] at hx
    simp only [beq_iff_eq]
    constructor
    · intro hc
      have hmod : (k + x) % n = (k + (i + n - k % n) % n) % n := by
        rw [hc, hkx0]
      have hxx0 : x % n = ((i + n - k % n) % n) % n :=
        Nat.ModEq.add_left_cancel' k hmod
      rwa [Nat.mod_eq_of_lt hx, Nat.mod_eq_of_lt hx0lt] at hxx0
    · intro hx0
      rw [hx0]
      exact hkx0
  rw [List.countP_congr hpred]
  have hc : (List.range n).countP (fun x => x == (i + n - k % n) % n)
      = (List.range n).count ((i + n - k % n) % n) := by
    simp [List.count]
  rw [hc]
  exact List.count_eq_one_of_mem (List.nodup_range n) (List.mem_range.mpr hx0lt)

/-- Over `m` blocks of `n` consecutive counter values starting at `k`,
each residue `i < n` is hit exactly `m` times. -/
lemma countP_mod_range_mul (n k i : ℕ) (hn : 0 < n) (hi : i < n) (m : ℕ) :
    (List.range (m * n)).countP (fun j => (k + j) % n == i) = m := by
  induction m with
  | zero => simp
  | succ m ih =>
    rw [Nat.succ_mul, List.range_add, List.countP_append, ih, List.countP_map]
    have hcongr : ∀ x ∈ List.range n,
        (((fun j => (k + j) % n == i) ∘ (fun x => m * n + x)) x) = true
          ↔ ((fun x => (k + x) % n == i) x) = true := by
      intro x hx
      simp only [Function.comp, beq_iff_eq]
      have e : (k + (m * n + x)) % n = (k + x) % n := by
        rw [show k + (m * n + x) = k + x + m * n by ring,
          Nat.add_mul_mod_self_right]
      rw [e]
    rw [List.countP_congr hcongr, countP_mod_range_base n k i hn hi]

/-- `selectCoreRun` on a non-empty active set: the `j`-th selection is
the active config at index `(counter + j) % n`, and the counter advances
by the number of calls. -/
lemma selectCoreRun_eq (m : ℕ) (s : ProxyState)
    (hs : 0 < s.activeConfigs.length) :
    (selectCoreRun s m).1 = (List.range m).map
        (fun j => s.activeConfigs.get?
          ((s.currentCoreIndex + j) % s.activeConfigs.length))
    ∧ (selectCoreRun s m).2
        = { s with currentCoreIndex := s.currentCoreIndex + m } := by
  induction m generalizing s with
  | zero =>
    constructor
    · rfl
    · show s = { s with currentCoreIndex := s.currentCoreIndex + 0 }
      rfl
  | succ m ih =>
    have hlen : s.activeConfigs.length ≠ 0 := Nat.pos_iff_ne_zero.mp hs
    have hsel : selectCore s
        = (s.activeConfigs.get? (s.currentCoreIndex % s.activeConfigs.length),
           { s with currentCoreIndex := s.currentCoreIndex + 1 }) := by
      rw [selectCore, if_neg hlen]
    obtain ⟨ih1, ih2⟩ := ih { s with currentCoreIndex := s.currentCoreIndex + 1 } hs
    have hrun : selectCoreRun { s with currentCoreIndex := s.currentCoreIndex + 1 } m
        = ((List.range m).map
            (fun j => s.activeConfigs.get?
              ((s.currentCoreIndex + 1 + j) % s.activeConfigs.length)),
           { s with currentCoreIndex := s.currentCoreIndex + 1 + m }) := by
      exact Prod.ext_iff.mpr ⟨ih1, ih2⟩
    constructor
    · show (selectCoreRun s (m + 1)).1 = _
      simp only [selectCoreRun, hsel, hrun]
      rw [List.range_succ_eq_map, List.map_cons, List.map_map]
      congr 1
      apply List.map_congr_left
      intro j hj
      simp only [Function.comp]
      have e : s.currentCoreIndex + 1 + j = s.currentCoreIndex + (j + 1) := by
        omega
      rw [e]
    · show (selectCoreRun s (m + 1)).2 = _
      simp only [selectCoreRun, hsel, hrun]
      congr 1
      omega

/-- C6 — over `3n` consecutive round-robin calls on an unchanged healthy
set of size `n ≥ 1`, the `j`-th call selects the backend at index
`(counter + j) % n` (registry order, wrapping), and each index `i < n`
is selected exactly 3 times. -/
theorem c6_round_robin_3n_uniform (s : ProxyState) (n i : ℕ) (hn : 0 < n)
    (hi : i < n) (hlen : s.activeConfigs.length = n) :
    (selectCoreRun s (3 * n)).1 = (List.range (3 * n)).map
        (fun j => s.activeConfigs.get? ((s.currentCoreIndex + j) % n))
    ∧ (List.range (3 * n)).countP
        (fun j => (s.currentCoreIndex + j) % n == i) = 3 := by
  subst hlen
  exact ⟨(selectCoreRun_eq (3 * s.activeConfigs.length) s hn).1,
    countP_mod_range_mul s.activeConfigs.length s.currentCoreIndex i hn hi 3⟩

/-- C6 witness: two healthy backends, counter starting at 5; the six
selections alternate in registry order and index 0 is selected exactly
3 times. -/
theorem c6_round_robin_3n_uniform_witness :
    (0 : ℕ) < 2 ∧ (0 : ℕ) < 2
    ∧ (⟨[coreApi1, coreApi2], [], 5⟩ : ProxyState).activeConfigs.length = 2
    ∧ ((selectCoreRun (⟨[coreApi1, coreApi2], [], 5⟩ : ProxyState) (3 * 2)).1
        = (List.range (3 * 2)).map
            (fun j => (⟨[coreApi1, coreApi2], [], 5⟩ : ProxyState).activeConfigs.get?
              (((⟨[coreApi1, coreApi2], [], 5⟩ : ProxyState).currentCoreIndex + j) % 2))
      ∧ (List.range (3 * 2)).countP
          (fun j => ((⟨[coreApi1, coreApi2], [], 5⟩ : ProxyState).currentCoreIndex + j) % 2
              == 0) = 3) :=
  ⟨by decide, by decide, by decide,
   c6_round_robin_3n_uniform ⟨[coreApi1, coreApi2], [], 5⟩ 2 0
     (by decide) (by decide) (by decide)⟩
